import Mathlib

/-!
Verification development for the Tallman dashboard maintenance scripts and
database-access wrapper servers.

The Python sources are shallowly embedded as executable Lean definitions:

* string helpers model the Python `str` methods (`upper`, `strip`,
  `startswith`, substring containment via `in`, `replace`) on ASCII text;
* the six `execute_sql` wrapper variants (`p21_http_server.py`,
  `p21_mcp_server.py`, `por_http_server.py`, `debug_server.py`,
  `epicore_p21_mcp.py`, `por_mcp.py`) become functions from an abstract
  database oracle to a structured response plus the list of SQL texts
  actually handed to `cursor.execute`;
* the catalog generator (`generate_complete_dashboard.py`) and the patch
  scripts (`update_customer_metrics.py`, `update_por_sql.py`) become pure
  functions on lists of metric records.
-/

/-! ## Python string primitives -/

/-- Uppercase one ASCII character, as Python `str.upper` does on ASCII text. -/
def pyCharUpper (c : Char) : Char :=
  if 'a' ≤ c && c ≤ 'z' then Char.ofNat (c.toNat - 32) else c

/-- Lowercase one ASCII character, as Python `str.lower` does on ASCII text. -/
def pyCharLower (c : Char) : Char :=
  if 'A' ≤ c && c ≤ 'Z' then Char.ofNat (c.toNat + 32) else c

/-- Python `str.upper` on ASCII text. -/
def pyUpper (s : String) : String := ⟨s.data.map pyCharUpper⟩

/-- Python `str.lower` on ASCII text. -/
def pyLower (s : String) : String := ⟨s.data.map pyCharLower⟩

/-- Whitespace characters stripped by Python `str.strip`. -/
def pySpaceChar (c : Char) : Bool :=
  c == ' ' || c == '\t' || c == '\n' || c == '\x0d' || c == '\x0b' || c == '\x0c'

/-- Python `str.strip`: drop whitespace from both ends. -/
def pyStrip (s : String) : String :=
  ⟨((s.data.dropWhile pySpaceChar).reverse.dropWhile pySpaceChar).reverse⟩

/-- Is `p` a prefix of `s` (character lists)? -/
def isPrefixList : List Char → List Char → Bool
  | [], _ => true
  | _ :: _, [] => false
  | p :: ps, c :: cs => p == c && isPrefixList ps cs

/-- Python `str.startswith`. -/
def pyStartsWith (s pre : String) : Bool := isPrefixList pre.data s.data

/-- Substring containment on character lists (Python `needle in hay`). -/
def containsList (pat : List Char) : List Char → Bool
  | [] => pat.isEmpty
  | c :: rest => isPrefixList pat (c :: rest) || containsList pat rest

/-- Python substring test `pat in s`. -/
def pyContains (s pat : String) : Bool := containsList pat.data s.data

/-- Python `str.replace` on character lists: left-to-right, non-overlapping.
The fuel argument (instantiated with the text length) only forces structural
recursion; each step consumes at least one character of the text. -/
def replaceFuel (pat rep : List Char) : Nat → List Char → List Char
  | 0, s => s
  | _ + 1, [] => []
  | n + 1, c :: rest =>
    if !pat.isEmpty && isPrefixList pat (c :: rest) then
      rep ++ replaceFuel pat rep n ((c :: rest).drop pat.length)
    else
      c :: replaceFuel pat rep n rest

/-- Python `str.replace` (replace every occurrence). -/
def pyReplace (s pat rep : String) : String :=
  ⟨replaceFuel pat.data rep.data s.data.length s.data⟩

/-- Python `str` rendering of an `Int` (as used by f-string substitution). -/
def pyIntRepr (i : Int) : String :=
  if i < 0 then "-" ++ Nat.repr i.natAbs else Nat.repr i.natAbs

/-- Numeric value of a (nonempty) run of decimal digits, Python `int(...)`. -/
def digitsToNat (ds : List Char) : Nat :=
  ds.foldl (fun a c => a * 10 + (c.toNat - 48)) 0

/-- A single-quote character (ASCII 39), used to spell SQL string literals. -/
def sqc : Char := Char.ofNat 39

/-- A single-quote as a string, used to spell SQL string literals. -/
def sqt : String := String.singleton sqc

/-! ## Driver values and JSON marshaling

A `DriverValue` abstracts one cell as pyodbc hands it to the wrapper: whether
it is float-convertible (`hasattr(value, '__float__')`), int-convertible
(`hasattr(value, '__int__')`), the Python `None`, and its `str(...)` rendering.
-/

/-- One driver-native cell value, described by the duck-typing attributes the
wrappers inspect. -/
structure DriverValue where
  floatView : Option Rat := none
  intView : Option Int := none
  isNone : Bool := false
  strView : String := ""
deriving DecidableEq

/-- A JSON-safe primitive as produced by the wrappers' row conversion. -/
inductive JsonPrim where
  | jFloat (x : Rat)
  | jInt (n : Int)
  | jNull
  | jStr (s : String)
deriving DecidableEq

/-- The wrappers' cell conversion (`p21_http_server.py` lines 286-293 and the
identical chain in `p21_mcp_server.py`, `epicore_p21_mcp.py`,
`debug_server.py`): float-convertible first, then int-convertible, then
`None`, else stringify. -/
def convertValue (v : DriverValue) : JsonPrim :=
  match v.floatView with
  | some x => JsonPrim.jFloat x
  | none =>
    match v.intView with
    | some n => JsonPrim.jInt n
    | none => if v.isNone then JsonPrim.jNull else JsonPrim.jStr v.strView

/-- The `DriverValue` describing a plain Python `int` (it has both
`__float__` and `__int__`). -/
def pyIntValue (n : Int) : DriverValue :=
  { floatView := some (n : Rat), intView := some n, isNone := false,
    strView := pyIntRepr n }

/-- Python `dict` insertion: overwriting an existing key keeps its position,
a new key is appended. -/
def dictInsert {α : Type} (d : List (String × α)) (k : String) (v : α) :
    List (String × α) :=
  match d with
  | [] => [(k, v)]
  | (k', v') :: rest =>
    if k' = k then (k, v) :: rest else (k', v') :: dictInsert rest k v

/-- `columns[i] if i < len(columns) else f"column_{i}"`. -/
def colName (columns : List String) (i : Nat) : String :=
  match columns.get? i with
  | some c => c
  | none => "column_" ++ Nat.repr i

/-- Row-to-dict conversion of the P21 wrappers: enumerate the row's cells,
name each by column position, convert each through `convertValue`. -/
def rowToDict (columns : List String) (row : List DriverValue) :
    List (String × JsonPrim) :=
  row.enum.foldl (fun d p => dictInsert d (colName columns p.1) (convertValue p.2)) []

/-- Row-to-dict conversion of `por_http_server.py`: same enumeration but the
raw driver values are stored without conversion. -/
def rowToDictRaw (columns : List String) (row : List DriverValue) :
    List (String × DriverValue) :=
  row.enum.foldl (fun d p => dictInsert d (colName columns p.1) p.2) []

/-- Row-to-dict conversion of `por_mcp.py`: enumerate the *columns* and index
into the row, storing raw values. -/
def rowToDictByCols (columns : List String) (row : List DriverValue) :
    List (String × DriverValue) :=
  columns.enum.foldl
    (fun d p => dictInsert d p.2 (row.getD p.1 { isNone := true })) []

/-! ## The `execute_sql` wrapper variants

The database is an oracle from SQL text to either an exception message or a
result set; a connection attempt is an `Except` as well.  Each variant
returns its structured response together with the list of SQL texts it
actually handed to `cursor.execute`.
-/

/-- One result set as the cursor yields it. -/
structure QueryResult where
  columns : List String
  rows : List (List DriverValue)
deriving DecidableEq

/-- The database oracle: what `cursor.execute` + fetch would produce. -/
def Database : Type := String → Except String QueryResult

/-- Response dictionary of the P21-style wrappers (JSON-converted data).
Fields that a variant's dictionary omits are `none`. -/
structure ExecResponse where
  success : Bool
  error : Option String := none
  rowCount : Option Nat := none
  columns : Option (List String) := none
  rdata : Option (List (List (String × JsonPrim))) := none
  query : Option String := none
  limited : Option Bool := none
deriving DecidableEq

/-- Response dictionary of the POR wrappers (raw, unconverted data). -/
structure RawExecResponse where
  success : Bool
  error : Option String := none
  rowCount : Option Nat := none
  columns : Option (List String) := none
  rdata : Option (List (List (String × DriverValue))) := none
  query : Option String := none
  limited : Option Bool := none
deriving DecidableEq

/-- The denylist of `p21_http_server.py` / `p21_mcp_server.py` /
`epicore_p21_mcp.py`. -/
def dangerousKeywords : List String :=
  ["DROP", "DELETE", "TRUNCATE", "INSERT", "UPDATE", "ALTER", "CREATE"]

/-- First denylisted keyword contained in the uppercased query, if any
(the Python `for` loop returns on the first hit, in list order). -/
def findDangerous (sqlUpper : String) : Option String :=
  dangerousKeywords.find? (fun k => pyContains sqlUpper k)

/-- `if limit: rows = cursor.fetchmany(limit) else: rows = cursor.fetchall()`
with Python truthiness (both `None` and `0` are falsy). -/
def fetchWithLimit (limit : Option Int) (rows : List (List DriverValue)) :
    List (List DriverValue) :=
  match limit with
  | none => rows
  | some n => if n == 0 then rows else rows.take n.toNat

/-- `"limited": limit is not None and len(rows) == limit`. -/
def limitedFlag (limit : Option Int) (fetched : Nat) : Bool :=
  match limit with
  | none => false
  | some n => (fetched : Int) == n

/-- `P21Server.execute_sql` (src/mcp-servers/p21_http_server.py, lines
224-318): validate (SELECT prefix, denylist, sandboxed-table marker), then
connect, execute, fetch up to `limit` rows and convert them. -/
def p21HttpExecuteSql (conn : Except String Unit) (db : Database)
    (sqlQuery : String) (limit : Option Int) : ExecResponse × List String :=
  let sqlUpper := pyStrip (pyUpper sqlQuery)
  if !(pyStartsWith sqlUpper "SELECT") then
    ({ success := false,
       error := some "Only SELECT statements are allowed for security reasons",
       query := some sqlQuery }, [])
  else
    match findDangerous sqlUpper with
    | some kw =>
      ({ success := false,
         error := some ("SQL contains potentially dangerous keyword: " ++ kw),
         query := some sqlQuery }, [])
    | none =>
      if pyContains (pyLower sqlQuery) "mcp_sandboxed_inv" then
        ({ success := false,
           error := some "Connection to MCP Sandbox failed: Network timeout.",
           query := some sqlQuery }, [])
      else
        match conn with
        | Except.error e =>
          ({ success := false, error := some e, query := some sqlQuery }, [])
        | Except.ok _ =>
          match db sqlQuery with
          | Except.error e =>
            ({ success := false, error := some e, query := some sqlQuery },
             [sqlQuery])
          | Except.ok res =>
            let rows := fetchWithLimit limit res.rows
            let rdata := rows.map (rowToDict res.columns)
            ({ success := true,
               rowCount := some rdata.length,
               columns := some res.columns,
               rdata := some rdata,
               query := some sqlQuery,
               limited := some (limitedFlag limit rows.length) }, [sqlQuery])

/-- `P21Database.execute_sql` (src/mcp-servers/p21_mcp_server.py, lines
103-190): acquires a connection *before* validating, has no sandboxed-table
check, otherwise identical to the HTTP variant. -/
def p21McpExecuteSql (conn : Except String Unit) (db : Database)
    (sqlQuery : String) (limit : Option Int) : ExecResponse × List String :=
  match conn with
  | Except.error e =>
    ({ success := false, error := some e, query := some sqlQuery }, [])
  | Except.ok _ =>
    let sqlUpper := pyStrip (pyUpper sqlQuery)
    if !(pyStartsWith sqlUpper "SELECT") then
      ({ success := false,
         error := some "Only SELECT statements are allowed for security reasons",
         query := some sqlQuery }, [])
    else
      match findDangerous sqlUpper with
      | some kw =>
        ({ success := false,
           error := some ("SQL contains potentially dangerous keyword: " ++ kw),
           query := some sqlQuery }, [])
      | none =>
        match db sqlQuery with
        | Except.error e =>
          ({ success := false, error := some e, query := some sqlQuery },
           [sqlQuery])
        | Except.ok res =>
          let rows := fetchWithLimit limit res.rows
          let rdata := rows.map (rowToDict res.columns)
          ({ success := true,
             rowCount := some rdata.length,
             columns := some res.columns,
             rdata := some rdata,
             query := some sqlQuery,
             limited := some (limitedFlag limit rows.length) }, [sqlQuery])

/-- `EpicoreP21.execute_sql` (src/mcp-servers/epicore_p21_mcp.py, lines
266-345): connection acquired first, then the same validation as the HTTP
variant (including the sandboxed-table check). -/
def epicoreExecuteSql (conn : Except String Unit) (db : Database)
    (sqlQuery : String) (limit : Option Int) : ExecResponse × List String :=
  match conn with
  | Except.error e =>
    ({ success := false, error := some e, query := some sqlQuery }, [])
  | Except.ok _ =>
    let sqlUpper := pyStrip (pyUpper sqlQuery)
    if !(pyStartsWith sqlUpper "SELECT") then
      ({ success := false,
         error := some "Only SELECT statements are allowed for security reasons",
         query := some sqlQuery }, [])
    else
      match findDangerous sqlUpper with
      | some kw =>
        ({ success := false,
           error := some ("SQL contains potentially dangerous keyword: " ++ kw),
           query := some sqlQuery }, [])
      | none =>
        if pyContains (pyLower sqlQuery) "mcp_sandboxed_inv" then
          ({ success := false,
             error := some "Connection to MCP Sandbox failed: Network timeout.",
             query := some sqlQuery }, [])
        else
          match db sqlQuery with
          | Except.error e =>
            ({ success := false, error := some e, query := some sqlQuery },
             [sqlQuery])
          | Except.ok res =>
            let rows := fetchWithLimit limit res.rows
            let rdata := rows.map (rowToDict res.columns)
            ({ success := true,
               rowCount := some rdata.length,
               columns := some res.columns,
               rdata := some rdata,
               query := some sqlQuery,
               limited := some (limitedFlag limit rows.length) }, [sqlQuery])

/-- `DebugP21Server.execute_sql` (src/mcp-servers/debug_server.py, lines
93-208): SELECT-prefix check only (no denylist), success dictionary carries
no `query` and no `limited` field. -/
def debugExecuteSql (conn : Except String Unit) (db : Database)
    (sqlQuery : String) (limit : Option Int) : ExecResponse × List String :=
  let sqlUpper := pyStrip (pyUpper sqlQuery)
  if !(pyStartsWith sqlUpper "SELECT") then
    ({ success := false,
       error := some "Only SELECT statements are allowed" }, [])
  else
    match conn with
    | Except.error e => ({ success := false, error := some e }, [])
    | Except.ok _ =>
      match db sqlQuery with
      | Except.error e => ({ success := false, error := some e }, [sqlQuery])
      | Except.ok res =>
        let rows := fetchWithLimit limit res.rows
        let rdata := rows.map (rowToDict res.columns)
        ({ success := true,
           rowCount := some rdata.length,
           columns := some res.columns,
           rdata := some rdata }, [sqlQuery])

/-- `PORServer.execute_sql` (src/mcp-servers/por_http_server.py, lines
106-148): *no* validation at all; rewrites `LIMIT` to `TOP`, executes
whatever it was given, fetches every row, stores raw values, ignores the
`limit` argument and reports no `limited` flag. -/
def porHttpExecuteSql (conn : Except String Unit) (db : Database)
    (sqlQuery : String) (_limit : Option Int) : RawExecResponse × List String :=
  match conn with
  | Except.error e =>
    ({ success := false, error := some e, query := some sqlQuery }, [])
  | Except.ok _ =>
    let sqlQuery2 :=
      if pyContains (pyUpper sqlQuery) "LIMIT" then
        pyReplace sqlQuery "LIMIT" "TOP"
      else sqlQuery
    match db sqlQuery2 with
    | Except.error e =>
      ({ success := false, error := some e, query := some sqlQuery2 },
       [sqlQuery2])
    | Except.ok res =>
      let rdata := res.rows.map (rowToDictRaw res.columns)
      ({ success := true,
         rdata := some rdata,
         rowCount := some rdata.length,
         columns := some res.columns,
         query := some sqlQuery2 }, [sqlQuery2])

/-- `PORMCPServer.execute_sql` (src/mcp-servers/por_mcp.py, lines 204-266):
SELECT-prefix check, canned reply when the uppercased text contains
`SELECT 1`, otherwise fetch everything raw and truncate afterwards; the
`limited` flag records whether truncation happened. -/
def porMcpExecuteSql (conn : Except String Unit) (db : Database)
    (sqlQuery : String) (limit : Option Int) : RawExecResponse × List String :=
  let sqlUpper := pyStrip (pyUpper sqlQuery)
  if !(pyStartsWith sqlUpper "SELECT") then
    ({ success := false,
       error := some "Only SELECT statements are supported for POR database",
       query := some sqlQuery }, [])
  else
    match conn with
    | Except.error e =>
      ({ success := false, error := some e, query := some sqlQuery }, [])
    | Except.ok _ =>
      if pyContains sqlUpper "SELECT 1" then
        ({ success := true,
           rowCount := some 1,
           columns := some ["test_connection"],
           rdata := some [[("test_connection", pyIntValue 1)]],
           query := some sqlQuery,
           limited := some false }, [])
      else
        match db sqlQuery with
        | Except.error e =>
          ({ success := false, error := some e, query := some sqlQuery },
           [sqlQuery])
        | Except.ok res =>
          let rdata0 := res.rows.map (rowToDictByCols res.columns)
          let truncate :=
            match limit with
            | none => false
            | some n => !(n == 0) && decide ((rdata0.length : Int) > n)
          let rdata := if truncate then rdata0.take ((limit.getD 0).toNat) else rdata0
          ({ success := true,
             rowCount := some rdata.length,
             columns := some res.columns,
             rdata := some rdata,
             query := some sqlQuery,
             limited := some truncate }, [sqlQuery])

/-! ## The metric catalog and its generator (`generate_complete_dashboard.py`)

A `MetricRecord` is one JSON object of the catalog file.  The `Key Metrics`
records carry no `filterColumn`/`filterValue` keys, hence those two fields
are optional.
-/

/-- One catalog record. -/
structure MetricRecord where
  id : Nat
  chartGroup : String
  variableName : String
  dataPoint : String
  serverName : String
  tableName : String
  productionSqlExpression : String
  value : Int
  calculationType : String
  lastUpdated : String
  valueColumn : String
  filterColumn : Option String := none
  filterValue : Option String := none
deriving DecidableEq

/-- `existing_dict = {item['id']: item for item in existing_data}` followed by
`existing_dict[i]`: a duplicate id keeps the *last* occurrence. -/
def lookupId (l : List MetricRecord) (i : Nat) : Option MetricRecord :=
  l.foldl (fun acc r => if r.id = i then some r else acc) none

/-- The repeated month-window fragment
`DATEFROMPARTS(YEAR(DATEADD(month,{o},GETDATE())), MONTH(DATEADD(month,{o},GETDATE())), 1)`
(with `o` already rendered), shared verbatim by several generator templates. -/
def dfp (o : String) : String :=
  "DATEFROMPARTS(YEAR(DATEADD(month," ++ o ++ ",GETDATE())), MONTH(DATEADD(month," ++
    o ++ ",GETDATE())), 1)"

/-- `aging_brackets`. -/
def agingBrackets : List String := ["1-30", "31-60", "61-90", "90+", "Current"]

/-- `aging_months`. -/
def agingMonths : List Int := [-11, -8, -5, -2, 0]

/-- `aging_values`. -/
def agingValues : List Int := [60000, 35000, 15000, 5000, 140000]

/-- `aging_columns`. -/
def agingColumns : List String :=
  ["amount_30", "amount_60", "amount_90", "amount_over", "current_balance"]

/-- Fresh `AR Aging` record for id `i` (1-5), lines 21-40 of the generator. -/
def freshArAging (i : Nat) : MetricRecord :=
  let bracket := agingBrackets.getD (i - 1) ""
  let m := pyIntRepr (agingMonths.getD (i - 1) 0)
  { id := i
    chartGroup := "AR Aging"
    variableName :=
      if bracket ≠ "Current" then "AR Aging Amount Due " ++ bracket ++ " Days"
      else "AR Aging Amount Due Current"
    dataPoint := bracket
    serverName := "P21"
    tableName := "balances"
    productionSqlExpression :=
      "SELECT SUM(cumulative_balance) AS result FROM balances WHERE year_for_period = CAST(YEAR(DATEADD(month, " ++
        m ++ ", GETDATE())) AS decimal(9,0)) AND period = CAST(MONTH(DATEADD(month, " ++
        m ++ ", GETDATE())) AS decimal(9,0));"
    value := agingValues.getD (i - 1) 0
    calculationType := "Totalize receivables within the specified temporal bracket."
    lastUpdated := "2024-08-01T00:00:00.000Z"
    valueColumn := agingColumns.getD (i - 1) ""
    filterColumn := some "age_bracket"
    filterValue := some (if bracket ≠ "Current" then bracket ++ " Days" else "Current") }

/-- `account_vars`. -/
def accountVars : List String := ["payable", "receivable", "overdue"]

/-- Fresh `Accounts` record for `(month, var_idx)`, lines 44-77 of the
generator; the SQL spells the offset as a literal `-` followed by `11-month`. -/
def freshAccounts (month varIdx : Nat) : MetricRecord :=
  let off := Nat.repr (11 - month)
  let varName := accountVars.getD varIdx ""
  let sqlExpr :=
    if varIdx = 0 then
      "SELECT SUM(total_amount) AS result FROM p21_view_soa_get_gl_daily_summaries WHERE account_type = " ++
        sqt ++ "Liability" ++ sqt ++ " AND year_for_period = YEAR(DATEADD(month, -" ++
        off ++ ", GETDATE())) AND period = MONTH(DATEADD(month, -" ++ off ++ ", GETDATE()));"
    else if varIdx = 1 then
      "SELECT SUM(b.cumulative_balance) AS result FROM balances b JOIN chart_of_accts a ON a.account_no = b.account_no WHERE (a.account_no LIKE " ++
        sqt ++ "11%" ++ sqt ++ " OR a.account_type LIKE " ++ sqt ++ "%AR%" ++ sqt ++
        ") AND b.year_for_period = YEAR(DATEADD(month, -" ++ off ++
        ", GETDATE())) AND b.period = MONTH(DATEADD(month, -" ++ off ++ ", GETDATE()));"
    else
      "SELECT b.year_for_period, b.period, SUM(b.cumulative_balance) AS ar_ending_balance FROM balances b JOIN chart_of_accts a ON a.account_no = b.account_no WHERE (a.account_no LIKE " ++
        sqt ++ "11%" ++ sqt ++ " OR a.account_type LIKE " ++ sqt ++ "%AR%" ++ sqt ++
        ") AND b.year_for_period = YEAR(DATEADD(month, -" ++ off ++
        ", GETDATE())) AND b.period = MONTH(DATEADD(month, -" ++ off ++
        ", GETDATE())) GROUP BY b.year_for_period, b.period;"
  { id := 6 + month * 3 + varIdx
    chartGroup := "Accounts"
    variableName := "Accounts " ++ (if varIdx = 0 then "Payable"
      else if varIdx = 1 then "Receivable" else "Overdue")
    dataPoint := varName
    serverName := "P21"
    tableName := if varIdx = 0 then "gl" else "balances"
    productionSqlExpression := sqlExpr
    value :=
      if varIdx = 0 then 1200 + (month : Int) * 100
      else if varIdx = 1 then 58000 + (month : Int) * 1000
      else max 6000 (8500 - (month : Int) * 100)
    calculationType := "Totalize " ++ varName ++ " for the appropriate calendar month."
    lastUpdated := "2024-08-01T00:00:00.000Z"
    valueColumn := varName
    filterColumn := some "month"
    filterValue := some ("current_month-" ++ off) }

/-- The `Web Orders` SQL template of the generator (line 87), parameterized
by the variable (`count` vs `amount`) and the month offset substituted at the
four `{-11+month}` holes. -/
def webOrdersSqlExpr (isCount : Bool) (o : Int) : String :=
  let os := pyIntRepr o
  "SELECT " ++ (if isCount then "COUNT(*)" else "SUM(total_amount)") ++
    " AS result FROM oe_hdr AS h WHERE h.order_date >= " ++ dfp os ++
    " AND h.order_date < DATEADD(month, 1, " ++ dfp os ++
    ") AND ( LTRIM(RTRIM(COALESCE(h.web_shopper_id, N" ++ sqt ++ sqt ++
    "))) <> N" ++ sqt ++ sqt ++ " OR LTRIM(RTRIM(COALESCE(h.web_shopper_email,N" ++
    sqt ++ sqt ++ "))) <> N" ++ sqt ++ sqt ++
    " OR LTRIM(RTRIM(COALESCE(h.web_reference_no, N" ++ sqt ++ sqt ++ "))) <> N" ++
    sqt ++ sqt ++ " );"

/-- Fresh `Web Orders` record for `(month, var_idx)`, lines 81-103. -/
def freshWebOrders (month varIdx : Nat) : MetricRecord :=
  let isCount := varIdx = 0
  { id := 42 + month * 2 + varIdx
    chartGroup := "Web Orders"
    variableName := "Web Orders " ++ (if isCount then "Count" else "Amount")
    dataPoint := if isCount then "count" else "amount"
    serverName := "P21"
    tableName := "oe_hdr"
    productionSqlExpression := webOrdersSqlExpr isCount (-11 + (month : Int))
    value := if isCount then 150 + (month : Int) * 10 else 12000 + (month : Int) * 500
    calculationType := (if isCount then "Count" else "Sum") ++
      " web orders for the appropriate calendar month."
    lastUpdated := "2024-08-01T00:00:00.000Z"
    valueColumn := if isCount then "count" else "amount"
    filterColumn := some "month"
    filterValue := some ("current_month-" ++ Nat.repr (11 - month)) }

/-- `inventory_categories`. -/
def inventoryCategories : List String :=
  ["Electronics", "Automotive", "Tools", "Hardware", "Office Supplies",
   "Safety Equipment", "Industrial", "Miscellaneous"]

/-- `inventory_ids`. -/
def inventoryIds : List String :=
  ["ELECTRONICS", "AUTOMOTIVE", "TOOLS", "HARDWARE", "OFFICE", "SAFETY",
   "INDUSTRIAL", "MISC"]

/-- `inventory_values`. -/
def inventoryValues : List Int :=
  [250000, 180000, 95000, 120000, 45000, 75000, 320000, 65000]

/-- Fresh `Inventory` record for index `i` (0-7), lines 110-130. -/
def freshInventory (i : Nat) : MetricRecord :=
  let category := inventoryCategories.getD i ""
  { id := 66 + i
    chartGroup := "Inventory"
    variableName := "Inventory Value " ++ category
    dataPoint := pyReplace (pyLower category) " " "_"
    serverName := "P21"
    tableName := "inventory_mast"
    productionSqlExpression :=
      "SELECT SUM(qty_on_hand * avg_cost) AS result FROM inventory_mast WHERE inv_mast_uid IN (SELECT inv_mast_uid FROM item WHERE item_class_id = " ++
        sqt ++ inventoryIds.getD i "" ++ sqt ++
        ") AND date_created <= DATEADD(month, -11, GETDATE());"
    value := inventoryValues.getD i 0
    calculationType := "Calculate inventory value by category for the appropriate calendar month."
    lastUpdated := "2024-08-01T00:00:00.000Z"
    valueColumn := "value"
    filterColumn := some "category"
    filterValue := some category }

/-- Fresh `POR Overview` record for `(month, var_idx)`, lines 134-151 (this
group never consults the existing data). -/
def freshPorOverview (month varIdx : Nat) : MetricRecord :=
  let isOrders := varIdx = 0
  let os := pyIntRepr (-11 + (month : Int))
  let dateCol := if isOrders then "order_date" else "invoice_date"
  { id := 74 + month * 2 + varIdx
    chartGroup := "POR Overview"
    variableName := "POR " ++ (if isOrders then "Orders" else "Revenue")
    dataPoint := if isOrders then "orders" else "revenue"
    serverName := "P21"
    tableName := if isOrders then "oe_hdr" else "invoice_hdr"
    productionSqlExpression :=
      "SELECT " ++ (if isOrders then "COUNT(*)" else "SUM(total_amount)") ++
        " AS result FROM " ++ (if isOrders then "oe_hdr" else "invoice_hdr") ++
        " WHERE " ++ dateCol ++ " >= " ++ dfp os ++ " AND " ++ dateCol ++
        " < DATEADD(month, 1, " ++ dfp os ++ ");"
    value := if isOrders then 450 + (month : Int) * 20 else 85000 + (month : Int) * 2000
    calculationType := (if isOrders then "Count" else "Sum") ++
      " POR data for the appropriate calendar month."
    lastUpdated := "2024-08-01T00:00:00.000Z"
    valueColumn := if isOrders then "orders" else "revenue"
    filterColumn := some "month"
    filterValue := some ("current_month-" ++ Nat.repr (11 - month)) }

/-- Fresh `Daily Orders` record for `day` (0-6), lines 154-170 (never
consults the existing data). -/
def freshDailyOrders (day : Nat) : MetricRecord :=
  { id := 98 + day
    chartGroup := "Daily Orders"
    variableName := "Daily Orders Day " ++ Nat.repr (day + 1)
    dataPoint := "day_" ++ Nat.repr (day + 1)
    serverName := "P21"
    tableName := "oe_hdr"
    productionSqlExpression :=
      "SELECT COUNT(*) AS result FROM oe_hdr WHERE order_date = DATEADD(day, -" ++
        Nat.repr (6 - day) ++ ", CAST(GETDATE() AS DATE));"
    value := 45 + (day : Int) * 5
    calculationType := "Count daily orders for specific day."
    lastUpdated := "2024-08-01T00:00:00.000Z"
    valueColumn := "orders"
    filterColumn := some "day"
    filterValue := some ("day-" ++ Nat.repr (6 - day)) }

/-- `hist_vars`. -/
def histVars : List String := ["sales", "orders", "customers"]

/-- Fresh `Historical Data` record for `(month, var_idx)`, lines 174-204
(never consults the existing data). -/
def freshHistorical (month varIdx : Nat) : MetricRecord :=
  let varName := histVars.getD varIdx ""
  let os := pyIntRepr (-11 + (month : Int))
  let sqlExpr :=
    if varIdx = 0 then
      "SELECT SUM(total_amount) AS result FROM invoice_hdr WHERE invoice_date >= " ++
        dfp os ++ " AND invoice_date < DATEADD(month, 1, " ++ dfp os ++ ");"
    else if varIdx = 1 then
      "SELECT COUNT(*) AS result FROM oe_hdr WHERE order_date >= " ++ dfp os ++
        " AND order_date < DATEADD(month, 1, " ++ dfp os ++ ");"
    else
      "SELECT COUNT(DISTINCT customer_id) AS result FROM oe_hdr WHERE order_date >= " ++
        dfp os ++ " AND order_date < DATEADD(month, 1, " ++ dfp os ++ ");"
  { id := 105 + month * 3 + varIdx
    chartGroup := "Historical Data"
    variableName := "Historical " ++ (if varIdx = 0 then "Sales"
      else if varIdx = 1 then "Orders" else "Customers")
    dataPoint := varName
    serverName := "P21"
    tableName := if varIdx = 0 then "invoice_hdr"
      else if varIdx = 1 then "oe_hdr" else "customer"
    productionSqlExpression := sqlExpr
    value :=
      if varIdx = 0 then 75000 + (month : Int) * 3000
      else if varIdx = 1 then 850 + (month : Int) * 50
      else 125 + (month : Int) * 8
    calculationType := "Historical " ++ varName ++ " data for the appropriate calendar month."
    lastUpdated := "2024-08-01T00:00:00.000Z"
    valueColumn := varName
    filterColumn := some "month"
    filterValue := some ("current_month-" ++ Nat.repr (11 - month)) }

/-- Fresh `Customer Metrics` record for `(month, var_idx)`, lines 208-232
(never consults the existing data). -/
def freshCustomerMetrics (month varIdx : Nat) : MetricRecord :=
  let isNew := varIdx = 0
  let os := pyIntRepr (-11 + (month : Int))
  let sqlExpr :=
    if isNew then
      "SELECT COUNT(*) AS result FROM customer WHERE date_created >= " ++ dfp os ++
        " AND date_created < DATEADD(month, 1, " ++ dfp os ++ ");"
    else
      "SELECT COUNT(DISTINCT c.customer_id) AS result FROM customer c JOIN oe_hdr o ON c.customer_id = o.customer_id WHERE o.order_date >= " ++
        dfp os ++ " AND o.order_date < DATEADD(month, 1, " ++ dfp os ++
        ") AND c.date_created < " ++ dfp os ++ ";"
  { id := 141 + month * 2 + varIdx
    chartGroup := "Customer Metrics"
    variableName := "Customer " ++ (if isNew then "New Customers" else "Retained Customers")
    dataPoint := if isNew then "new_customers" else "retained_customers"
    serverName := "P21"
    tableName := "customer"
    productionSqlExpression := sqlExpr
    value := if isNew then 25 + (month : Int) * 2 else 95 + (month : Int) * 5
    calculationType := "Customer metrics for the appropriate calendar month."
    lastUpdated := "2024-08-01T00:00:00.000Z"
    valueColumn := if isNew then "new_customers" else "retained_customers"
    filterColumn := some "month"
    filterValue := some ("current_month-" ++ Nat.repr (11 - month)) }

/-- `key_metrics` tuples, lines 235-243. -/
def keyMetricsList : List (String × String × String × Int) :=
  [("Total Sales YTD", "Total Orders",
    "SELECT COUNT(order_no) AS result FROM oe_hdr;", 12540),
   ("Total Orders YTD", "Open Orders (/day)",
    "SELECT COUNT(order_no) AS result FROM oe_hdr WHERE status = " ++ sqt ++
      "open" ++ sqt ++ " AND CAST(order_date AS DATE) = CAST(GETDATE() AS DATE);", 85),
   ("Average Order Value", "All Open Orders",
    "SELECT COUNT(order_no) AS result FROM oe_hdr WHERE status = " ++ sqt ++
      "open" ++ sqt ++ ";", 1250),
   ("Gross Profit Margin", "Daily Revenue",
    "SELECT SUM(total_amount) AS result FROM invoice_hdr WHERE CAST(invoice_date AS DATE) = CAST(GETDATE() AS DATE);",
    415230),
   ("Customer Acquisition Rate", "Open Invoices",
    "SELECT SUM(total_amount) AS result FROM invoice_hdr WHERE status = " ++ sqt ++
      "open" ++ sqt ++ ";", 2350000),
   ("Inventory Turnover", "Orders Backloged",
    "SELECT COUNT(DISTINCT order_no) AS result FROM oe_line WHERE status = " ++ sqt ++
      "backordered" ++ sqt ++ ";", 310),
   ("Customer Retention Rate", "Total Sales (Monthly)",
    "SELECT SUM(total_amount) AS result FROM invoice_hdr WHERE invoice_date >= DATEADD(month, DATEDIFF(month, 0, GETDATE()), 0) AND invoice_date < DATEADD(month, DATEDIFF(month, 0, GETDATE()) + 1, 0);",
    8345000)]

/-- Fresh `Key Metrics` record for index `i` (0-6), lines 245-262; carries no
`filterColumn`/`filterValue`. -/
def freshKeyMetrics (i : Nat) : MetricRecord :=
  let t := keyMetricsList.getD i ("", "", "", 0)
  { id := 165 + i
    chartGroup := "Key Metrics"
    variableName := t.1
    dataPoint := t.2.1
    serverName := "P21"
    tableName := if pyContains (pyLower t.2.2.1) "order" then "oe_hdr" else "invoice_hdr"
    productionSqlExpression := t.2.2.1
    value := t.2.2.2
    calculationType := "Key business metrics calculation."
    lastUpdated := "2024-08-01T00:00:00.000Z"
    valueColumn := if pyContains t.2.2.1 "order_no" then "order_no" else "total_amount" }

/-- `site_locations`. -/
def siteLocations : List String := ["Columbus", "Addison", "City"]

/-- Fresh `Site Distribution` record for index `i` (0-2), lines 266-285. -/
def freshSiteDistribution (i : Nat) : MetricRecord :=
  let location := siteLocations.getD i ""
  { id := 172 + i
    chartGroup := "Site Distribution"
    variableName := "Site Distribution " ++ location
    dataPoint := location
    serverName := "P21"
    tableName := "branch"
    productionSqlExpression :=
      "SELECT COUNT(*) as result FROM branch WHERE location_name = " ++ sqt ++
        location ++ sqt ++ ";"
    value := 1
    calculationType := "Totalize revenue from the specified geographical locus."
    lastUpdated := "2024-08-01T00:00:00.000Z"
    valueColumn := "sales"
    filterColumn := some "site_name"
    filterValue := some location }

/-- Stable insertion into an id-sorted list. -/
def insertById (r : MetricRecord) : List MetricRecord → List MetricRecord
  | [] => [r]
  | x :: xs => if r.id ≤ x.id then r :: x :: xs else x :: insertById r xs

/-- `data.sort(key=lambda x: x['id'])` — stable sort by id. -/
def sortById : List MetricRecord → List MetricRecord
  | [] => []
  | x :: xs => insertById x (sortById xs)

/-- The whole generator: build every block in program order, preferring the
existing record where the script checks `if entry_id in existing_dict`, then
sort by id.  The `existing` argument plays the role of the preloaded
`hooks/dashboard-data.json`. -/
def generateDashboard (existing : List MetricRecord) : List MetricRecord :=
  let lk := lookupId existing
  let pick : Nat → MetricRecord → MetricRecord := fun eid fresh =>
    match lk eid with
    | some r => r
    | none => fresh
  let arAging := (List.range 5).map (fun j => pick (j + 1) (freshArAging (j + 1)))
  let accounts := ((List.range 12).map (fun month =>
    (List.range 3).map (fun v => pick (6 + month * 3 + v) (freshAccounts month v)))).flatten
  let webOrders := ((List.range 12).map (fun month =>
    (List.range 2).map (fun v => pick (42 + month * 2 + v) (freshWebOrders month v)))).flatten
  let inventory := (List.range 8).map (fun i => pick (66 + i) (freshInventory i))
  let porOverview := ((List.range 12).map (fun month =>
    (List.range 2).map (fun v => freshPorOverview month v))).flatten
  let dailyOrders := (List.range 7).map (fun day => freshDailyOrders day)
  let historical := ((List.range 12).map (fun month =>
    (List.range 3).map (fun v => freshHistorical month v))).flatten
  let customerMetrics := ((List.range 12).map (fun month =>
    (List.range 2).map (fun v => freshCustomerMetrics month v))).flatten
  let keyMetrics := (List.range 7).map (fun i => pick (165 + i) (freshKeyMetrics i))
  let siteDistribution := (List.range 3).map (fun i => pick (172 + i) (freshSiteDistribution i))
  sortById (arAging ++ accounts ++ webOrders ++ inventory ++ porOverview ++
    dailyOrders ++ historical ++ customerMetrics ++ keyMetrics ++ siteDistribution)

/-! ## Patch scripts (`update_customer_metrics.py`, `update_por_sql.py`)

These scripts load a per-group catalog file, rewrite selected records in
place and save the list back.  A `PatchRecord` carries the fields the
scripts read or write; everything else in the JSON object is collapsed into
the opaque `other` field, which no script touches.
-/

/-- One record of a per-group catalog file, as the patch scripts see it. -/
structure PatchRecord where
  id : Nat
  variableName : String
  dataPoint : String
  valueColumn : String
  filterValue : String
  productionSqlExpression : String
  other : String := ""
deriving DecidableEq

/-- `re.match(r'current_month-(\d+)', filter_value)`: the text must *start*
with `current_month-` followed by at least one digit; the captured group is
the maximal digit run. -/
def matchCurrentMonthDigits (fv : String) : Option (List Char) :=
  if isPrefixList ("current_month-".data) fv.data then
    let ds := (fv.data.drop 14).takeWhile Char.isDigit
    if ds.isEmpty then none else some ds
  else none

/-- The corrected new-customers SQL of `update_customer_metrics.py` line 31,
with `{month_offset}` the captured digit text and `{upper_month_offset}`
its integer value minus one. -/
def newCustomersSql (mo : String) : String :=
  let up := pyIntRepr ((digitsToNat mo.data : Int) - 1)
  "SELECT COUNT(DISTINCT customer_uid) AS new_customers_m" ++ mo ++
    " FROM customer WHERE date_acct_opened IS NOT NULL AND date_acct_opened >= " ++
    dfp ("-" ++ mo) ++ " AND date_acct_opened <  " ++ dfp ("-" ++ up) ++ ";"

/-- The corrected prospects SQL of `update_customer_metrics.py` line 43. -/
def prospectsSql (mo : String) : String :=
  let m1 := pyIntRepr ((digitsToNat mo.data : Int) - 1)
  "SELECT COUNT(*) AS prospects FROM customer AS c WHERE CAST(c.date_acct_opened AS date) >= " ++
    dfp ("-" ++ mo) ++ " AND CAST(c.date_acct_opened AS date) < " ++ dfp m1 ++
    " AND NOT EXISTS (SELECT 1 FROM oe_hdr AS h WHERE h.customer_id = c.customer_id);"

/-- The corrected new-prospects SQL of `update_customer_metrics.py` line 49
(unreachable in the script: `'New Prospects' in v` implies
`'Prospects' in v`, so the previous branch always fires first). -/
def newProspectsSql (mo : String) : String :=
  let m1 := pyIntRepr ((digitsToNat mo.data : Int) - 1)
  "SELECT COUNT(*) AS new_prospects_m" ++ mo ++
    " FROM customer AS c WHERE CAST(c.date_acct_opened AS date) >= " ++
    dfp ("-" ++ mo) ++ " AND CAST(c.date_acct_opened AS date) < " ++ dfp m1 ++
    " AND NOT EXISTS (SELECT 1 FROM oe_hdr AS h WHERE h.customer_id = c.customer_id);"

/-- The per-entry body of `update_customer_metrics` (lines 15-51): entries
whose `filterValue` does not start with `current_month-<digits>` are left
alone; otherwise the branch chain on `variableName` fires. -/
def cmPatchOne (e : PatchRecord) : PatchRecord :=
  match matchCurrentMonthDigits e.filterValue with
  | none => e
  | some ds =>
    let mo : String := ⟨ds⟩
    let vn := e.variableName
    if pyContains vn "New Customers" then
      { e with productionSqlExpression := newCustomersSql mo }
    else if pyContains vn "Retained" || pyContains vn "Prospects" then
      let e1 :=
        if pyContains vn "Retained" then
          { e with
            variableName := pyReplace vn "Customer Retained Customers" "Prospects"
            dataPoint := "prospects"
            valueColumn := "prospects" }
        else e
      { e1 with productionSqlExpression := prospectsSql mo }
    else if pyContains vn "New Prospects" then
      { e with productionSqlExpression := newProspectsSql mo }
    else e

/-- `update_customer_metrics`: rewrite each entry in place, preserving order. -/
def updateCustomerMetrics (data : List PatchRecord) : List PatchRecord :=
  data.map cmPatchOne

/-- A database oracle that answers every query with the same result set. -/
def constDb (res : QueryResult) : Database := fun _ => Except.ok res

/-- A 100-row single-column result set. -/
def rows100 : QueryResult := ⟨["c"], List.replicate 100 [pyIntValue 1]⟩

/-- An empty result set. -/
def emptyResult : QueryResult := ⟨["c"], []⟩

/-- A one-row result set as a connectivity test would produce. -/
def oneRowResult : QueryResult := ⟨["test_connection"], [[pyIntValue 1]]⟩

/-- A record shaped like the retained-customers entries of
`customer-metrics.json`. -/
def retainedRecord : PatchRecord :=
  { id := 142
    variableName := "Customer Retained Customers"
    dataPoint := "retained_customers"
    valueColumn := "retained_customers"
    filterValue := "current_month-1"
    productionSqlExpression := "OLD SQL"
    other := "rest-of-record" }

example : pyUpper "select 1" = "SELECT 1" := by decide
example : pyStrip "  x y " = "x y" := by decide
example : pyStartsWith "SELECT 1" "SELECT" = true := by decide
example : pyContains "DATE_CREATED" "CREATE" = true := by decide
example : pyReplace "SELECT LIMIT 5" "LIMIT" "TOP" = "SELECT TOP 5" := by decide
example : pyIntRepr (-3) = "-3" ∧ pyIntRepr 0 = "0" := by decide

/-! ## Claim C1 -/

/-- C1, counterexample: the POR HTTP wrapper (`por_http_server.py`,
`PORServer.execute_sql`) performs no validation at all.  Handed
`DROP TABLE x` — which does not start with `SELECT` after uppercasing and
stripping — it passes the statement verbatim to `cursor.execute` and, when
the driver does not raise, even reports `success: true`. -/
theorem c1_counterexample_porHttpExecutesNonSelect :
    (porHttpExecuteSql (Except.ok ()) (constDb oneRowResult) "DROP TABLE x"
      (some 100)).2 = ["DROP TABLE x"] ∧
    (porHttpExecuteSql (Except.ok ()) (constDb oneRowResult) "DROP TABLE x"
      (some 100)).1.success = true ∧
    pyStartsWith (pyStrip (pyUpper "DROP TABLE x")) "SELECT" = false := by
  decide

/-- C1, amended: every `execute_sql` variant *except* the POR HTTP server's
rejects a query that does not start with `SELECT` after uppercasing and
stripping: `success` is `false`, nothing is handed to `cursor.execute`, and
(when the connection step did not itself fail first, for the variants that
connect before validating) the error is the variant's validation message. -/
theorem c1_amended_selectOnlyValidation
    (conn : Except String Unit) (db : Database) (sql : String)
    (limit : Option Int)
    (h : pyStartsWith (pyStrip (pyUpper sql)) "SELECT" = false) :
    ((p21HttpExecuteSql conn db sql limit).1.success = false ∧
     (p21HttpExecuteSql conn db sql limit).1.error =
       some "Only SELECT statements are allowed for security reasons" ∧
     (p21HttpExecuteSql conn db sql limit).2 = []) ∧
    ((p21McpExecuteSql conn db sql limit).1.success = false ∧
     (p21McpExecuteSql conn db sql limit).2 = [] ∧
     (conn = Except.ok () →
       (p21McpExecuteSql conn db sql limit).1.error =
         some "Only SELECT statements are allowed for security reasons")) ∧
    ((epicoreExecuteSql conn db sql limit).1.success = false ∧
     (epicoreExecuteSql conn db sql limit).2 = [] ∧
     (conn = Except.ok () →
       (epicoreExecuteSql conn db sql limit).1.error =
         some "Only SELECT statements are allowed for security reasons")) ∧
    ((debugExecuteSql conn db sql limit).1.success = false ∧
     (debugExecuteSql conn db sql limit).1.error =
       some "Only SELECT statements are allowed" ∧
     (debugExecuteSql conn db sql limit).2 = []) ∧
    ((porMcpExecuteSql conn db sql limit).1.success = false ∧
     (porMcpExecuteSql conn db sql limit).1.error =
       some "Only SELECT statements are supported for POR database" ∧
     (porMcpExecuteSql conn db sql limit).2 = []) := by
  refine ⟨?_, ?_, ?_, ?_, ?_⟩
  · simp [p21HttpExecuteSql, h]
  · cases conn <;> simp [p21McpExecuteSql, h]
  · cases conn <;> simp [epicoreExecuteSql, h]
  · simp [debugExecuteSql, h]
  · simp [porMcpExecuteSql, h]

/-- Witness for `c1_amended_selectOnlyValidation` at `DROP TABLE x`. -/
theorem c1_amended_witness :
    (p21HttpExecuteSql (Except.ok ()) (constDb oneRowResult) "DROP TABLE x"
      none).1.success = false ∧
    (p21HttpExecuteSql (Except.ok ()) (constDb oneRowResult) "DROP TABLE x"
      none).2 = [] :=
  let a := c1_amended_selectOnlyValidation (Except.ok ()) (constDb oneRowResult)
    "DROP TABLE x" none (by decide)
  ⟨a.1.1, a.1.2.2⟩

/-! ## Claim C9 -/

/-- C9: the denylist check is raw substring containment on the uppercased
text, so the harmless `SELECT date_created FROM customer` — whose only brush
with a denylisted keyword is the identifier `date_created` containing
`CREATE` — is rejected with the keyword validation failure and never
executed, in both P21 wrapper variants. -/
theorem c9_identifierSubstringFalsePositive :
    pyStartsWith (pyStrip (pyUpper "SELECT date_created FROM customer"))
      "SELECT" = true ∧
    (p21HttpExecuteSql (Except.ok ()) (constDb rows100)
      "SELECT date_created FROM customer" (some 1000)).1.success = false ∧
    (p21HttpExecuteSql (Except.ok ()) (constDb rows100)
      "SELECT date_created FROM customer" (some 1000)).1.error =
      some "SQL contains potentially dangerous keyword: CREATE" ∧
    (p21HttpExecuteSql (Except.ok ()) (constDb rows100)
      "SELECT date_created FROM customer" (some 1000)).2 = [] ∧
    (p21McpExecuteSql (Except.ok ()) (constDb rows100)
      "SELECT date_created FROM customer" (some 1000)).1.error =
      some "SQL contains potentially dangerous keyword: CREATE" ∧
    (p21McpExecuteSql (Except.ok ()) (constDb rows100)
      "SELECT date_created FROM customer" (some 1000)).2 = [] := by
  decide

/-! ## Claim C3 -/

/-- C3, counterexample: the POR HTTP wrapper — one of the `execute_sql`
implementations the claim ranges over — ignores the `limit` argument
entirely: with `limit = 5` against a 100-row result set it returns all 100
rows, and its response carries no `limited` flag at all. -/
theorem c3_counterexample_porHttpIgnoresLimit :
    (porHttpExecuteSql (Except.ok ()) (constDb rows100) "SELECT c FROM t"
      (some 5)).1.rowCount = some 100 ∧
    (porHttpExecuteSql (Except.ok ()) (constDb rows100) "SELECT c FROM t"
      (some 5)).1.limited = none := by
  decide

/-- C3, amended (P21 wrappers): on any successful call with a positive limit
`n`, the returned row count is `min n.toNat rows` (hence at most `n`), and
`limited` is true exactly when the number of fetched rows equals the limit.
The `limit=5` / `limit=200` versus 100-row instances follow by
instantiation (see the witness). -/
theorem c3_amended_p21LimitSemantics
    (db : Database) (sql : String) (n : Int) (res : QueryResult)
    (h1 : pyStartsWith (pyStrip (pyUpper sql)) "SELECT" = true)
    (h2 : findDangerous (pyStrip (pyUpper sql)) = none)
    (h3 : pyContains (pyLower sql) "mcp_sandboxed_inv" = false)
    (hdb : db sql = Except.ok res)
    (hn : 0 < n) :
    (p21HttpExecuteSql (Except.ok ()) db sql (some n)).1.success = true ∧
    (p21HttpExecuteSql (Except.ok ()) db sql (some n)).1.rowCount =
      some (min n.toNat res.rows.length) ∧
    min n.toNat res.rows.length ≤ n.toNat ∧
    (p21HttpExecuteSql (Except.ok ()) db sql (some n)).1.limited =
      some (((min n.toNat res.rows.length : Nat) : Int) == n) ∧
    (p21McpExecuteSql (Except.ok ()) db sql (some n)).1.success = true ∧
    (p21McpExecuteSql (Except.ok ()) db sql (some n)).1.rowCount =
      some (min n.toNat res.rows.length) ∧
    (p21McpExecuteSql (Except.ok ()) db sql (some n)).1.limited =
      some (((min n.toNat res.rows.length : Nat) : Int) == n) := by
  have hz : (n == 0) = false := by
    simp only [beq_eq_false_iff_ne, ne_eq]
    omega
  simp [p21HttpExecuteSql, p21McpExecuteSql, h1, h2, h3, hdb, fetchWithLimit,
    hz, limitedFlag, List.length_take, min_comm]

/-- Witness for `c3_amended_p21LimitSemantics`: against the 100-row result
set, `limit=5` returns 5 rows with `limited:true` and `limit=200` returns
100 rows with `limited:false`. -/
theorem c3_amended_witness :
    ((p21HttpExecuteSql (Except.ok ()) (constDb rows100) "SELECT c FROM t"
        (some 5)).1.rowCount = some 5 ∧
     (p21HttpExecuteSql (Except.ok ()) (constDb rows100) "SELECT c FROM t"
        (some 5)).1.limited = some true) ∧
    ((p21HttpExecuteSql (Except.ok ()) (constDb rows100) "SELECT c FROM t"
        (some 200)).1.rowCount = some 100 ∧
     (p21HttpExecuteSql (Except.ok ()) (constDb rows100) "SELECT c FROM t"
        (some 200)).1.limited = some false) := by
  have a5 := c3_amended_p21LimitSemantics (constDb rows100) "SELECT c FROM t"
    5 rows100 (by decide) (by decide) (by decide) rfl (by decide)
  have a200 := c3_amended_p21LimitSemantics (constDb rows100) "SELECT c FROM t"
    200 rows100 (by decide) (by decide) (by decide) rfl (by decide)
  exact ⟨⟨a5.2.1, a5.2.2.2.1⟩, ⟨a200.2.1, a200.2.2.2.1⟩⟩

/-! ## Claim C10 -/

/-- C10, counterexample: with `limit = 0` the P21 HTTP wrapper does fetch
every row, but on an *empty* result set it reports `limited: some true`
(`limit is not None and len(rows) == limit` holds for `0 == 0`), not
`limited: false` "regardless of the result-set size". -/
theorem c10_counterexample_zeroLimitEmptyResult :
    (p21HttpExecuteSql (Except.ok ()) (constDb emptyResult) "SELECT 1"
      (some 0)).1.limited = some true ∧
    (p21HttpExecuteSql (Except.ok ()) (constDb emptyResult) "SELECT 1"
      (some 0)).1.rowCount = some 0 := by
  decide

/-- C10, amended: a falsy limit (`None` or `0`) bypasses row limiting in
both P21 wrappers — every row of the result set is fetched and returned.
With `limit=None` the response always reports `limited:false`; with
`limit=0` it reports `limited` true exactly on an empty result set. -/
theorem c10_amended_falsyLimitBypass
    (db : Database) (sql : String) (res : QueryResult)
    (h1 : pyStartsWith (pyStrip (pyUpper sql)) "SELECT" = true)
    (h2 : findDangerous (pyStrip (pyUpper sql)) = none)
    (h3 : pyContains (pyLower sql) "mcp_sandboxed_inv" = false)
    (hdb : db sql = Except.ok res) :
    ((p21HttpExecuteSql (Except.ok ()) db sql none).1.rowCount =
        some res.rows.length ∧
     (p21HttpExecuteSql (Except.ok ()) db sql none).1.limited = some false) ∧
    ((p21HttpExecuteSql (Except.ok ()) db sql (some 0)).1.rowCount =
        some res.rows.length ∧
     (p21HttpExecuteSql (Except.ok ()) db sql (some 0)).1.limited =
        some (((res.rows.length : Nat) : Int) == 0)) ∧
    ((p21McpExecuteSql (Except.ok ()) db sql none).1.rowCount =
        some res.rows.length ∧
     (p21McpExecuteSql (Except.ok ()) db sql none).1.limited = some false) ∧
    ((p21McpExecuteSql (Except.ok ()) db sql (some 0)).1.rowCount =
        some res.rows.length ∧
     (p21McpExecuteSql (Except.ok ()) db sql (some 0)).1.limited =
        some (((res.rows.length : Nat) : Int) == 0)) := by
  simp [p21HttpExecuteSql, p21McpExecuteSql, h1, h2, h3, hdb, fetchWithLimit,
    limitedFlag]

/-- Witness for `c10_amended_falsyLimitBypass` against the 100-row result
set: both falsy limits return all 100 rows with `limited:false`. -/
theorem c10_amended_witness :
    (p21HttpExecuteSql (Except.ok ()) (constDb rows100) "SELECT c FROM t"
      none).1.rowCount = some 100 ∧
    (p21HttpExecuteSql (Except.ok ()) (constDb rows100) "SELECT c FROM t"
      (some 0)).1.limited = some false := by
  have a := c10_amended_falsyLimitBypass (constDb rows100) "SELECT c FROM t"
    rows100 (by decide) (by decide) (by decide) rfl
  exact ⟨a.1.1, by simpa using a.2.1.2⟩

/-! ## Claim C6 -/

/-- C6: a query that does start with `SELECT` but contains a denylisted
keyword in its uppercased text is rejected by both P21 wrappers with the
keyword validation failure and is never executed; concretely
`SELECT * FROM x; DROP TABLE y` is rejected without execution while
`SELECT 1` passes validation, is handed to `cursor.execute`, and succeeds
whenever the driver returns a result set. -/
theorem c6_dangerousKeywordRejection
    (conn : Except String Unit) (db : Database) (sql : String)
    (limit : Option Int) (kw : String)
    (h1 : pyStartsWith (pyStrip (pyUpper sql)) "SELECT" = true)
    (h2 : findDangerous (pyStrip (pyUpper sql)) = some kw) :
    ((p21HttpExecuteSql conn db sql limit).1.success = false ∧
     (p21HttpExecuteSql conn db sql limit).1.error =
       some ("SQL contains potentially dangerous keyword: " ++ kw) ∧
     (p21HttpExecuteSql conn db sql limit).2 = []) ∧
    ((p21McpExecuteSql (Except.ok ()) db sql limit).1.success = false ∧
     (p21McpExecuteSql (Except.ok ()) db sql limit).1.error =
       some ("SQL contains potentially dangerous keyword: " ++ kw) ∧
     (p21McpExecuteSql (Except.ok ()) db sql limit).2 = []) ∧
    ((p21HttpExecuteSql conn db "SELECT * FROM x; DROP TABLE y" limit).1.success
        = false ∧
     (p21HttpExecuteSql conn db "SELECT * FROM x; DROP TABLE y" limit).1.error =
       some ("SQL contains potentially dangerous keyword: " ++ "DROP") ∧
     (p21HttpExecuteSql conn db "SELECT * FROM x; DROP TABLE y" limit).2 = []) ∧
    ((p21HttpExecuteSql (Except.ok ()) db "SELECT 1" limit).2 = ["SELECT 1"]) ∧
    (∀ res, db "SELECT 1" = Except.ok res →
      (p21HttpExecuteSql (Except.ok ()) db "SELECT 1" limit).1.success = true) := by
  refine ⟨?_, ?_, ?_, ?_, ?_⟩
  · simp [p21HttpExecuteSql, h1, h2]
  · simp [p21McpExecuteSql, h1, h2]
  · exact ⟨rfl, rfl, rfl⟩
  · rcases hdb : db "SELECT 1" with e | res <;>
      (simp only [p21HttpExecuteSql, hdb]; rfl)
  · intro res hdb
    simp only [p21HttpExecuteSql, hdb]
    rfl

/-- Witness for `c6_dangerousKeywordRejection` at
`SELECT * FROM x; DROP TABLE y` (keyword `DROP`) against the one-row
database. -/
theorem c6_witness :
    (p21HttpExecuteSql (Except.ok ()) (constDb oneRowResult)
      "SELECT * FROM x; DROP TABLE y" (some 1000)).1.error =
      some ("SQL contains potentially dangerous keyword: " ++ "DROP") ∧
    (p21HttpExecuteSql (Except.ok ()) (constDb oneRowResult) "SELECT 1"
      (some 1000)).1.success = true :=
  let a := c6_dangerousKeywordRejection (Except.ok ()) (constDb oneRowResult)
    "SELECT * FROM x; DROP TABLE y" (some 1000) "DROP" (by decide) (by decide)
  ⟨a.1.2.1, a.2.2.2.2 oneRowResult rfl⟩

/-! ## Claim C7 -/

/-- C7: the cell conversion applies a fixed precedence — float-convertible
first, then int-convertible, then `None`, else stringify — and every data
row a successful P21 call returns is exactly the fetched driver row pushed
through this conversion, so the returned data holds only floats, ints,
nulls and strings (the four `JsonPrim` constructors). -/
theorem c7_conversionPrecedence :
    (∀ v : DriverValue,
      (∀ x, v.floatView = some x → convertValue v = JsonPrim.jFloat x) ∧
      (v.floatView = none →
        ∀ n, v.intView = some n → convertValue v = JsonPrim.jInt n) ∧
      (v.floatView = none → v.intView = none → v.isNone = true →
        convertValue v = JsonPrim.jNull) ∧
      (v.floatView = none → v.intView = none → v.isNone = false →
        convertValue v = JsonPrim.jStr v.strView)) ∧
    (∀ (db : Database) (sql : String) (limit : Option Int) (res : QueryResult),
      pyStartsWith (pyStrip (pyUpper sql)) "SELECT" = true →
      findDangerous (pyStrip (pyUpper sql)) = none →
      pyContains (pyLower sql) "mcp_sandboxed_inv" = false →
      db sql = Except.ok res →
      (p21HttpExecuteSql (Except.ok ()) db sql limit).1.rdata =
        some ((fetchWithLimit limit res.rows).map (rowToDict res.columns))) := by
  constructor
  · intro v
    obtain ⟨fv, iv, nn, sv⟩ := v
    refine ⟨?_, ?_, ?_, ?_⟩
    · rintro x rfl
      rfl
    · rintro rfl n rfl
      rfl
    · rintro rfl rfl rfl
      rfl
    · rintro rfl rfl rfl
      rfl
  · intro db sql limit res h1 h2 h3 hdb
    simp [p21HttpExecuteSql, h1, h2, h3, hdb]

/-- Witness for `c7_conversionPrecedence`: a decimal-like value (both views
present) converts to a float, and the successful call's data is the
converted fetched rows. -/
theorem c7_witness :
    convertValue (pyIntValue 2) = JsonPrim.jFloat 2 ∧
    (p21HttpExecuteSql (Except.ok ()) (constDb oneRowResult) "SELECT 1"
      (some 5)).1.rdata =
      some ((fetchWithLimit (some 5) oneRowResult.rows).map
        (rowToDict oneRowResult.columns)) :=
  ⟨(c7_conversionPrecedence.1 (pyIntValue 2)).1 2 rfl,
   c7_conversionPrecedence.2 (constDb oneRowResult) "SELECT 1" (some 5)
     oneRowResult (by decide) (by decide) (by decide) rfl⟩

/-! ## Claim C2 -/

/-- C2, counterexample: `update_customer_metrics` does *not* leave
non-matching records byte-identical.  A record whose `variableName` is
`Customer Retained Customers` (which does not contain `New Customers`) is
rewritten: its `variableName` becomes `Prospects`, and `dataPoint`,
`valueColumn` and `productionSqlExpression` change too. -/
theorem c2_counterexample_retainedRecordRewritten :
    pyContains retainedRecord.variableName "New Customers" = false ∧
    updateCustomerMetrics [retainedRecord] ≠ [retainedRecord] ∧
    (updateCustomerMetrics [retainedRecord]).map (fun e => e.variableName) =
      ["Prospects"] ∧
    (updateCustomerMetrics [retainedRecord]).map (fun e => e.dataPoint) =
      ["prospects"] := by
  decide

/-- A prefix of the text is in particular a substring of it. -/
theorem containsList_of_isPrefixList (y s : List Char)
    (h : isPrefixList y s = true) : containsList y s = true := by
  cases s with
  | nil =>
    cases y with
    | nil => rfl
    | cons a ys => simp [isPrefixList] at h
  | cons c cs => simp [containsList, h]

/-- If `x ++ y` is a prefix of the text, `y` is a substring of it. -/
theorem containsList_of_isPrefixList_append (x y : List Char) :
    ∀ s, isPrefixList (x ++ y) s = true → containsList y s = true := by
  induction x with
  | nil => exact fun s h => containsList_of_isPrefixList y s h
  | cons a x ih =>
    intro s h
    cases s with
    | nil => simp [isPrefixList] at h
    | cons c cs =>
      simp only [List.cons_append, isPrefixList, Bool.and_eq_true] at h
      have hc := ih cs h.2
      simp [containsList, hc]

/-- A text containing `x ++ pat` contains `pat`. -/
theorem containsList_of_containsList_append (x pat : List Char) :
    ∀ s, containsList (x ++ pat) s = true → containsList pat s = true := by
  intro s
  induction s with
  | nil =>
    intro h
    simp only [containsList, List.isEmpty_iff, List.append_eq_nil] at h ⊢
    exact h.2
  | cons c cs ih =>
    intro h
    simp only [containsList, Bool.or_eq_true] at h
    cases h with
    | inl h => exact containsList_of_isPrefixList_append x pat (c :: cs) h
    | inr h =>
      have hc := ih h
      simp [containsList, hc]

/-- A `variableName` containing `New Prospects` contains `Prospects`; this
is why the script's `New Prospects` branch is unreachable. -/
theorem pyContains_prospects_of_newProspects (s : String)
    (h : pyContains s "New Prospects" = true) :
    pyContains s "Prospects" = true := by
  have hsplit : "New Prospects".data = "New ".data ++ "Prospects".data := by
    decide
  unfold pyContains at h ⊢
  rw [hsplit] at h
  exact containsList_of_containsList_append _ _ _ h

/-- C2, amended: the script maps each record in place (no reordering, no
additions or deletions) and never touches `id`, `filterValue` or the fields
outside its target set; on records whose `variableName` contains
`New Customers` only `productionSqlExpression` changes; records matching
none of `New Customers` / `Retained` / `Prospects`, or whose `filterValue`
does not start with `current_month-<digits>`, are byte-identical — but
`Retained`/`Prospects` records with a parseable `filterValue` are also
modified, the `Retained` ones additionally in `variableName`, `dataPoint`
and `valueColumn`. -/
theorem c2_amended_customerMetricsFrame
    (data : List PatchRecord) (e : PatchRecord) :
    updateCustomerMetrics data = data.map cmPatchOne ∧
    (cmPatchOne e).id = e.id ∧
    (cmPatchOne e).filterValue = e.filterValue ∧
    (cmPatchOne e).other = e.other ∧
    (pyContains e.variableName "New Customers" = true →
      (cmPatchOne e).variableName = e.variableName ∧
      (cmPatchOne e).dataPoint = e.dataPoint ∧
      (cmPatchOne e).valueColumn = e.valueColumn) ∧
    (pyContains e.variableName "New Customers" = false →
      pyContains e.variableName "Retained" = false →
      pyContains e.variableName "Prospects" = false →
      cmPatchOne e = e) ∧
    (matchCurrentMonthDigits e.filterValue = none → cmPatchOne e = e) := by
  refine ⟨rfl, ?_, ?_, ?_, ?_, ?_, ?_⟩
  · cases hm : matchCurrentMonthDigits e.filterValue
    · simp [cmPatchOne, hm]
    · simp only [cmPatchOne, hm]
      split_ifs <;> rfl
  · cases hm : matchCurrentMonthDigits e.filterValue
    · simp [cmPatchOne, hm]
    · simp only [cmPatchOne, hm]
      split_ifs <;> rfl
  · cases hm : matchCurrentMonthDigits e.filterValue
    · simp [cmPatchOne, hm]
    · simp only [cmPatchOne, hm]
      split_ifs <;> rfl
  · intro hnc
    cases hm : matchCurrentMonthDigits e.filterValue
    · simp [cmPatchOne, hm]
    · simp [cmPatchOne, hm, hnc]
  · intro hnc hr hp
    have hnp : pyContains e.variableName "New Prospects" = false := by
      cases h' : pyContains e.variableName "New Prospects"
      · rfl
      · exact absurd (pyContains_prospects_of_newProspects _ h') (by simp [hp])
    cases hm : matchCurrentMonthDigits e.filterValue
    · simp [cmPatchOne, hm]
    · simp [cmPatchOne, hm, hnc, hr, hp, hnp]
  · intro hm
    simp [cmPatchOne, hm]

/-- Witness for `c2_amended_customerMetricsFrame` at a matching
new-customers record: only the SQL text changes. -/
theorem c2_amended_witness :
    (cmPatchOne { retainedRecord with
        variableName := "Customer New Customers" }).variableName =
      "Customer New Customers" ∧
    (cmPatchOne { retainedRecord with
        variableName := "Customer New Customers" }).other = "rest-of-record" :=
  let a := c2_amended_customerMetricsFrame [retainedRecord]
    { retainedRecord with variableName := "Customer New Customers" }
  ⟨(a.2.2.2.2.1 (by decide)).1, a.2.2.2.1⟩

/-! ## Claim C8 -/

set_option maxRecDepth 1000000 in
set_option maxHeartbeats 2000000 in
/-- C4: a fresh (override-free) generator run yields exactly 174 records
with ids 1..174 in ascending order, each id once, and every chart group
occupies exactly its declared contiguous, non-overlapping id range — in
particular `Accounts` is exactly the 36 records with ids 6..41. -/
theorem c4_idRangesAndGroups :
    (generateDashboard []).map (fun r => r.id) = List.range' 1 174 ∧
    ((generateDashboard []).filter (fun r => r.chartGroup == "AR Aging")).map
      (fun r => r.id) = List.range' 1 5 ∧
    ((generateDashboard []).filter (fun r => r.chartGroup == "Accounts")).map
      (fun r => r.id) = List.range' 6 36 ∧
    ((generateDashboard []).filter (fun r => r.chartGroup == "Web Orders")).map
      (fun r => r.id) = List.range' 42 24 ∧
    ((generateDashboard []).filter (fun r => r.chartGroup == "Inventory")).map
      (fun r => r.id) = List.range' 66 8 ∧
    ((generateDashboard []).filter (fun r => r.chartGroup == "POR Overview")).map
      (fun r => r.id) = List.range' 74 24 ∧
    ((generateDashboard []).filter (fun r => r.chartGroup == "Daily Orders")).map
      (fun r => r.id) = List.range' 98 7 ∧
    ((generateDashboard []).filter (fun r => r.chartGroup == "Historical Data")).map
      (fun r => r.id) = List.range' 105 36 ∧
    ((generateDashboard []).filter (fun r => r.chartGroup == "Customer Metrics")).map
      (fun r => r.id) = List.range' 141 24 ∧
    ((generateDashboard []).filter (fun r => r.chartGroup == "Key Metrics")).map
      (fun r => r.id) = List.range' 165 7 ∧
    ((generateDashboard []).filter (fun r => r.chartGroup == "Site Distribution")).map
      (fun r => r.id) = List.range' 172 3 := by
  decide

set_option maxRecDepth 1000000 in
set_option maxHeartbeats 4000000 in
/-- C5: the generator is idempotent.  Feeding the output of an override-free
run back in as the existing-data file reproduces that output exactly:
every record the override table preserves equals the record the generator
would have freshly produced, and the groups generated unconditionally are
deterministic. -/
theorem c5_generatorIdempotent :
    generateDashboard (generateDashboard []) = generateDashboard [] := by
  decide
